import Mathlib

/-!
Verification of the playlist planning/hydration pipeline and the playlist
mutation operations of the DJAgent server (src/server.js), as a shallow
embedding in Lean.

Conventions of the embedding:
* JavaScript objects parsed from JSON are modelled with `Option` fields where
  the code distinguishes a present field from an absent (or wrongly typed) one.
* The `Set` of used track ids in the fallback planner is modelled as a
  `List String` with membership queries.
* `Math.random`-driven shuffling is modelled by the Fisher-Yates algorithm of
  `shuffle` parameterized by an injected source of random draws
  (`seed i` stands for `Math.floor(Math.random() * (i + 1))` clamped by `% (i+1)`),
  and pipeline functions take the resulting shuffle function as a parameter.
* Persistence is modelled by `..Persisted` wrappers: the handler writes the
  new document exactly when the operation succeeds, otherwise the stored
  document is unchanged.
-/

namespace DJAgent

/-- Track record as stored in the library catalog (`library.tracks` entries
in src/server.js). The source-location field `sourcePath` and art fields are
irrelevant to every claim and omitted; `duration` (seconds) is kept as a `Nat`. -/
structure Track where
  id : String
  title : String
  artist : String
  album : String
  genre : String
  year : Option Int
  duration : Nat
  style : String
  deriving Repr, DecidableEq

/-- The track catalog: the `library` object with its `tracks` array. -/
structure Library where
  tracks : List Track
  deriving Repr, DecidableEq

/-- A hydrated tanda as built by `fallbackPlaylistPlan` and `hydratePlan`. -/
structure Tanda where
  id : String
  type : String
  reasoning : String
  tracks : List Track
  deriving Repr, DecidableEq

/-- Result of planning: the `{ tandas, cortinas }` pair returned by both
`fallbackPlaylistPlan` and `hydratePlan`. A cortina slot holds `none` for the
JavaScript `null`/`undefined` entries. -/
structure PlanPair where
  tandas : List Tanda
  cortinas : List (Option Track)
  deriving Repr, DecidableEq

/-- The persisted playlist document (the `agentDebug` diagnostic record is not
referenced by any claim and is omitted). -/
structure Playlist where
  id : String
  name : String
  prompt : String
  generationSource : String
  createdAt : String
  updatedAt : String
  tandas : List Tanda
  cortinas : List (Option Track)
  deriving Repr, DecidableEq

/-- Style keys recognized by `groupByStyle` (the keys of its `grouped` object). -/
def recognizedStyles : List String := ["tango", "vals", "milonga", "cortina"]

/-- Bucket a track is filed under: `grouped[track.style] ? track.style : 'tango'`
in `groupByStyle` — an unrecognized style falls back to tango. -/
def bucketOf (t : Track) : String :=
  if recognizedStyles.contains t.style then t.style else "tango"

/-- groupByStyle as a function from a style key to its bucket, preserving the
catalog order in which tracks are pushed. -/
def groupByStyle (lib : Library) (s : String) : List Track :=
  lib.tracks.filter (fun t => bucketOf t == s)

/-- Swap of the entries at positions `i` and `j`
(`[copy[i], copy[j]] = [copy[j], copy[i]]`); out-of-range indices leave the
list unchanged. -/
def swapIdx (l : List α) (i j : Nat) : List α :=
  match l[i]?, l[j]? with
  | some x, some y => (l.set i y).set j x
  | _, _ => l

/-- Countdown loop of the `shuffle` function: at counter `i + 1` draw
`j = seed (i + 1) % (i + 2)` (the value of `Math.floor(Math.random() * (i + 2))`)
and swap positions `i + 1` and `j`, stopping once the counter reaches 0. -/
def shuffleAux (seed : Nat → Nat) (l : List α) : Nat → List α
  | 0 => l
  | i + 1 => shuffleAux seed (swapIdx l (i + 1) (seed (i + 1) % (i + 2))) i

/-- Fisher-Yates `shuffle` of src/server.js, with the `Math.random` draws
injected through `seed`. -/
def shuffle (seed : Nat → Nat) (l : List α) : List α :=
  shuffleAux seed l (l.length - 1)

/-- Pattern slot: one entry of the fixed `pattern` array of
`fallbackPlaylistPlan`. -/
structure Slot where
  type : String
  size : Nat
  deriving Repr, DecidableEq

/-- The fixed pattern of `fallbackPlaylistPlan`:
tango(4), tango(4), vals(3), tango(4), tango(4), milonga(3). -/
def pattern : List Slot :=
  [⟨"tango", 4⟩, ⟨"tango", 4⟩, ⟨"vals", 3⟩, ⟨"tango", 4⟩, ⟨"tango", 4⟩, ⟨"milonga", 3⟩]

/-- Reasoning string attached to every fallback tanda. -/
def fallbackReasoning : String := "Fallback selection due to unavailable OpenAI plan."

/-- The `pattern.map` loop of `fallbackPlaylistPlan` with its mutable `used`
set threaded explicitly: returns the built tandas together with the final
used-id set. `sh` is the shuffle (with its randomness already injected). -/
def buildFallbackTandas (sh : List Track → List Track) (lib : Library) :
    List Slot → Nat → List String → List Tanda × List String
  | [], _, used => ([], used)
  | slot :: rest, idx, used =>
    let pool := (sh (groupByStyle lib slot.type)).filter (fun t => !used.contains t.id)
    let chosen := pool.take slot.size
    let used1 := used ++ chosen.map (fun t => t.id)
    let next := buildFallbackTandas sh lib rest (idx + 1) used1
    ({ id := "tanda-" ++ toString (idx + 1), type := slot.type,
       reasoning := fallbackReasoning, tracks := chosen } :: next.1, next.2)

/-- fallbackPlaylistPlan of src/server.js. After building the six tandas, the
cortina pool is the shuffled cortina bucket (or the tango bucket when no
cortina-styled track exists) minus already used tracks; `cortinaPool[idx] || null`
becomes `cortinaPool[idx]?`. -/
def fallbackPlaylistPlan (sh : List Track → List Track) (lib : Library) : PlanPair :=
  let built := buildFallbackTandas sh lib pattern 0 []
  let tandas := built.1
  let used := built.2
  let cortinaBase :=
    if (groupByStyle lib "cortina").length != 0 then groupByStyle lib "cortina"
    else groupByStyle lib "tango"
  let cortinaPool := (sh cortinaBase).filter (fun t => !used.contains t.id)
  { tandas := tandas, cortinas := tandas.enum.map (fun it => cortinaPool[it.1]?) }

/-- Raw tanda entry of an agent-produced plan, after `JSON.parse`. A `none`
field stands for an absent (or, for `trackIds`, non-array) field. -/
structure RawTanda where
  type : Option String
  reasoning : Option String
  trackIds : Option (List String)
  deriving Repr, DecidableEq

/-- Value of the `cortinaTrackIds` field of a parsed plan. The code treats
three cases differently in `(plan.cortinaTrackIds || []).map(...)`:
an absent field or a falsy value falls back to `[]`; an array is mapped; a
present truthy non-array value (a non-empty string, an object, a non-zero
number) has no `.map` and makes the expression throw a `TypeError`. -/
inductive CortinaField where
  | absent
  | arr (ids : List String)
  | nonArray
  deriving Repr, DecidableEq

/-- Evaluation of `plan.cortinaTrackIds || []` in the non-throwing cases
(`nonArray` never reaches this coercion: the `.map` on it throws first). -/
def CortinaField.idsOrEmpty : CortinaField → List String
  | .arr ids => ids
  | _ => []

/-- Raw plan object, after `JSON.parse`. -/
structure RawPlan where
  tandas : Option (List RawTanda)
  cortinaTrackIds : CortinaField
  deriving Repr, DecidableEq

/-- The local `pattern` array of `validatePlanShape`. -/
def patternTypes : List String := ["tango", "tango", "vals", "tango", "tango", "milonga"]

/-- validatePlanShape of src/server.js: the plan must be non-null, carry a
`tandas` array of exactly 6 entries, and every entry must have
`type === pattern[i]` and an array-typed `trackIds`. -/
def validatePlanShape (plan : Option RawPlan) : Bool :=
  match plan with
  | none => false
  | some p =>
    match p.tandas with
    | none => false
    | some ts =>
      ts.length == 6 &&
        ts.enum.all (fun it => it.2.type == patternTypes[it.1]? && it.2.trackIds.isSome)

/-- Lookup in the `trackMap` of `hydratePlan`
(`new Map(library.tracks.map((track) => [track.id, track]))`): a later entry
with the same id overwrites an earlier one, so the last match wins. -/
def trackMapGet (lib : Library) (id : String) : Option Track :=
  lib.tracks.reverse.find? (fun t => t.id == id)

/-- The `patternSizes` array of `hydratePlan`. -/
def patternSizes : List Nat := [4, 4, 3, 4, 4, 3]

/-- JavaScript `arr.slice(0, bound)` where `bound` may be `undefined`
(`patternSizes[idx]` beyond index 5): an absent bound keeps the whole list. -/
def sliceTo (l : List α) (bound : Option Nat) : List α :=
  match bound with
  | some n => l.take n
  | none => l

/-- Default reasoning inserted by `hydratePlan` when the raw entry's
reasoning is absent or empty (both falsy in `tanda.reasoning || ...`). -/
def defaultReasoning : String := "AI selected this tanda for flow."

/-- Evaluation of `tanda.reasoning || defaultReasoning`. -/
def reasoningOrDefault (r : Option String) : String :=
  match r with
  | some s => if s == "" then defaultReasoning else s
  | none => defaultReasoning

/-- Uncaught JavaScript exception escaping `hydratePlan` (thrown outside the
playlist handler's `try`/`catch`). -/
inductive HydrateError where
  | typeError
  deriving Repr, DecidableEq

/-- hydratePlan of src/server.js. `plan.tandas.map(...)` throws a `TypeError`
when `tandas` is absent (callers guard this with `validatePlanShape`).
`(tanda.trackIds || []).map(id => trackMap.get(id)).filter(Boolean)` is the
`filterMap` of the lookup; the result is clamped by
`slice(0, patternSizes[idx])`; a missing entry `type` is copied as `""`.
Cortina references go through `(plan.cortinaTrackIds || []).map(...)`: a
truthy non-array field value throws a `TypeError` (no `.map` on it), which
nothing catches; otherwise the unresolved references are dropped by
`.filter(Boolean)` and the result truncated by `.slice(0, 6)`. -/
def hydratePlan (plan : RawPlan) (lib : Library) : Except HydrateError PlanPair :=
  match plan.tandas with
  | none => .error .typeError
  | some ts =>
    match plan.cortinaTrackIds with
    | CortinaField.nonArray => .error .typeError
    | cf =>
      .ok
        { tandas := ts.enum.map (fun it =>
            { id := "tanda-" ++ toString (it.1 + 1),
              type := (it.2.type).getD "",
              reasoning := reasoningOrDefault it.2.reasoning,
              tracks := sliceTo ((it.2.trackIds.getD []).filterMap (trackMapGet lib))
                patternSizes[it.1]? }),
          cortinas := ((cf.idsOrEmpty.filterMap (trackMapGet lib)).take 6).map some }

/-- normalizePlaylist of src/server.js: rebuilds every tanda with a
guaranteed `tracks` array, maps every cortina slot through `c || null`, and
re-stamps `updatedAt` with the current time `now`. -/
def normalizePlaylist (p : Playlist) (now : String) : Playlist :=
  { p with
    tandas := p.tandas.map (fun t => { t with tracks := t.tracks }),
    cortinas := p.cortinas.map (fun c => c),
    updatedAt := now }

/-- Outcome of the planning attempt observed by the `POST /api/playlists`
handler: the proposer may be unconfigured (no API key, `plan: null`), may
throw (network failure or unparseable `JSON.parse` input, caught by the
handler's `try`/`catch` which leaves `plan` null), or may deliver a parsed
candidate (whose shape is not yet verified; `JSON.parse` can legally produce
`null`). -/
inductive ProposalOutcome where
  | unconfigured (reason : String)
  | threw (message : String)
  | candidate (plan : Option RawPlan)
  deriving Repr, DecidableEq

/-- Value of the handler's `plan` variable after the `try`/`catch` block. -/
def planFromOutcome : ProposalOutcome → Option RawPlan
  | .unconfigured _ => none
  | .threw _ => none
  | .candidate p => p

/-- Core of the `POST /api/playlists` handler, after the non-empty-library
guard: decide `usedFallback = !plan || !validatePlanShape(plan)`, hydrate the
agent plan or fabricate a fallback plan, and assemble the normalized playlist
document. The `hydratePlan` call sits outside the `try`/`catch` that guards
the proposer, so a `TypeError` thrown there escapes the handler: no playlist
is assembled, returned or written. -/
def createPlaylist (sh : List Track → List Track) (lib : Library)
    (outcome : ProposalOutcome) (id name prompt now : String) :
    Except HydrateError Playlist :=
  let plan := planFromOutcome outcome
  let hydrated : Except HydrateError PlanPair :=
    match plan with
    | some p =>
      if validatePlanShape (some p) then hydratePlan p lib
      else .ok (fallbackPlaylistPlan sh lib)
    | none => .ok (fallbackPlaylistPlan sh lib)
  match hydrated with
  | .error e => .error e
  | .ok pair =>
    .ok (normalizePlaylist
      { id := id, name := name, prompt := prompt,
        generationSource := if validatePlanShape plan then "agent" else "fallback",
        createdAt := now, updatedAt := "",
        tandas := pair.tandas, cortinas := pair.cortinas } now)

/-- A mutation-request index as received from JSON: either a number or some
non-number value. Number inputs are modelled as integers. -/
inductive MoveArg where
  | num (i : Int)
  | nonNumber
  deriving Repr, DecidableEq

/-- Failure modes of the move-tanda handler: the explicit 400 response for
non-number indices, and the uncaught `TypeError` thrown by
`normalizePlaylist` when an out-of-range `fromIndex` made `splice` deliver
`undefined` as the moved tanda. -/
inductive MoveError where
  | invalidArgument
  | typeError
  deriving Repr, DecidableEq

/-- Clamping of a `splice` start argument: a negative start counts from the
end (bottoming out at 0), a start beyond the length clamps to the length. -/
def spliceIndex (len : Nat) (start : Int) : Nat :=
  if start < 0 then ((len : Int) + start).toNat else min start.toNat len

/-- `l.splice(start, 1)`: the list with one element removed at the clamped
index (unchanged when the index is past the end), and the removed element
(`none` standing for an empty removal, i.e. `undefined`). -/
def spliceRemove1 (l : List α) (start : Int) : List α × Option α :=
  let k := spliceIndex l.length start
  (l.eraseIdx k, l[k]?)

/-- `l.splice(start, 0, x)`: insertion of `x` at the clamped index. -/
def spliceInsert (l : List α) (start : Int) (x : α) : List α :=
  let k := spliceIndex l.length start
  l.insertIdx k x

/-- Core of the `POST /api/playlists/:id/move-tanda` handler, after the
playlist has been read: reject non-number indices with a 400; otherwise
splice the tanda and its index-aligned cortina out of position `fromIndex`
and back in at `toIndex`, then normalize. When `fromIndex` is past the end
the removal yields `undefined`, and re-normalizing a tanda array containing
`undefined` throws a `TypeError` (`t.tracks` on `undefined`); the removed
cortina being `undefined` is harmless (`c || null`). -/
def moveTanda (p : Playlist) (fromIndex toIndex : MoveArg) (now : String) :
    Except MoveError Playlist :=
  match fromIndex, toIndex with
  | .num fi, .num ti =>
    let rT := spliceRemove1 p.tandas fi
    let rC := spliceRemove1 p.cortinas fi
    match rT.2 with
    | some tanda =>
      let tandas := spliceInsert rT.1 ti tanda
      let cortinas := spliceInsert rC.1 ti (rC.2.getD none)
      .ok (normalizePlaylist { p with tandas := tandas, cortinas := cortinas } now)
    | none => .error .typeError
  | _, _ => .error .invalidArgument

/-- Persisted document after the move-tanda request: the handler writes the
updated playlist only on success. -/
def moveTandaPersisted (p : Playlist) (fromIndex toIndex : MoveArg) (now : String) : Playlist :=
  match moveTanda p fromIndex toIndex now with
  | .ok p2 => p2
  | .error _ => p

/-- Failure mode of the replace-track handler relevant to the claims: the
replacement id is absent from the catalog. -/
inductive ReplaceError where
  | notFound
  deriving Repr, DecidableEq

/-- Core of the `POST /api/playlists/:id/replace-track` handler, after the
playlist has been read: look the replacement up in the library
(`library.tracks.find`), fail when absent, otherwise overwrite the single
track at `(tandaIndex, trackIndex)` and normalize. -/
def replaceTrack (p : Playlist) (lib : Library) (tandaIndex trackIndex : Nat)
    (replacementTrackId : String) (now : String) : Except ReplaceError Playlist :=
  match lib.tracks.find? (fun t => t.id == replacementTrackId) with
  | none => .error .notFound
  | some replacement =>
    .ok (normalizePlaylist
      { p with
        tandas := p.tandas.modify
          (fun t => { t with tracks := t.tracks.set trackIndex replacement }) tandaIndex } now)

/-- Persisted document after the replace-track request: the handler writes
the updated playlist only on success. -/
def replaceTrackPersisted (p : Playlist) (lib : Library) (tandaIndex trackIndex : Nat)
    (replacementTrackId : String) (now : String) : Playlist :=
  match replaceTrack p lib tandaIndex trackIndex replacementTrackId now with
  | .ok p2 => p2
  | .error _ => p

/-! ### Concrete sample data used by witnesses and counterexamples -/

/-- Minimal track constructor for concrete test data. -/
def mkTrack (id style : String) : Track :=
  { id := id, title := id, artist := "a", album := "b", genre := "", year := none,
    duration := 0, style := style }

/-- Small concrete catalog with distinct ids across all four styles. -/
def sampleLib : Library :=
  { tracks := [mkTrack "T1" "tango", mkTrack "T2" "tango", mkTrack "T3" "tango",
               mkTrack "T4" "tango", mkTrack "T5" "tango",
               mkTrack "V1" "vals", mkTrack "V2" "vals",
               mkTrack "M1" "milonga", mkTrack "M2" "milonga",
               mkTrack "K1" "cortina", mkTrack "K2" "cortina"] }

/-- Concrete tanda constructor for test playlists. -/
def sampleTanda (n : Nat) (s : String) (tr : List Track) : Tanda :=
  { id := "tanda-" ++ toString n, type := s, reasoning := "r", tracks := tr }

/-- Concrete well-formed playlist with 6 tandas and 6 cortina slots. -/
def samplePlaylist : Playlist :=
  { id := "playlist-1", name := "N", prompt := "", generationSource := "fallback",
    createdAt := "t0", updatedAt := "t0",
    tandas := [sampleTanda 1 "tango" [mkTrack "T1" "tango"],
               sampleTanda 2 "tango" [mkTrack "T2" "tango"],
               sampleTanda 3 "vals" [mkTrack "V1" "vals"],
               sampleTanda 4 "tango" [mkTrack "T3" "tango"],
               sampleTanda 5 "tango" [mkTrack "T4" "tango"],
               sampleTanda 6 "milonga" [mkTrack "M1" "milonga"]],
    cortinas := [some (mkTrack "K1" "cortina"), none, none, none, none, none] }

/-- Raw tanda of a given style with no track references, used to build
well-shaped raw plans. -/
def rawTandaOfType (s : String) : RawTanda :=
  { type := some s, reasoning := some "r", trackIds := some [] }

/-- Well-shaped raw plan whose tandas all carry empty trackIds and whose
cortinaTrackIds field is absent. -/
def emptyIdsPlan : RawPlan :=
  { tandas := some (patternTypes.map rawTandaOfType), cortinaTrackIds := .absent }

/-- Well-shaped raw plan whose cortinaTrackIds holds a truthy non-array
value (such as the JSON string "x"): shape-valid, yet hydration throws. -/
def badCortinaPlan : RawPlan :=
  { tandas := some (patternTypes.map rawTandaOfType), cortinaTrackIds := .nonArray }

/-- Well-shaped raw plan whose first cortina reference does not resolve
against `sampleLib` while the second one does. -/
def shiftPlan : RawPlan :=
  { tandas := some (patternTypes.map rawTandaOfType),
    cortinaTrackIds := .arr ["ZZ", "K1"] }

/-- The hydrated pair produced by `shiftPlan` against `sampleLib`, used to
instantiate the hydration-success hypotheses concretely. -/
def shiftPair : PlanPair :=
  match hydratePlan shiftPlan sampleLib with
  | .ok pair => pair
  | .error _ => { tandas := [], cortinas := [] }

/-! ### Shared helper lemmas -/

theorem trackMapGet_mem {lib : Library} {id : String} {t : Track}
    (h : trackMapGet lib id = some t) : t ∈ lib.tracks := by
  have := List.mem_of_find?_eq_some h
  simpa using this

theorem length_filterMap_eq_countP (f : α → Option β) :
    ∀ l : List α, (l.filterMap f).length = l.countP (fun a => (f a).isSome)
  | [] => rfl
  | a :: l => by
    cases h : f a <;>
      simp [List.filterMap_cons, List.countP_cons, h, length_filterMap_eq_countP f l]

theorem hydratePlan_ok_shape {p : RawPlan} {lib : Library} {pair : PlanPair}
    {ts : List RawTanda} (hts : p.tandas = some ts)
    (hok : hydratePlan p lib = Except.ok pair) :
    pair.tandas = ts.enum.map (fun it =>
      { id := "tanda-" ++ toString (it.1 + 1),
        type := (it.2.type).getD "",
        reasoning := reasoningOrDefault it.2.reasoning,
        tracks := sliceTo ((it.2.trackIds.getD []).filterMap (trackMapGet lib))
          patternSizes[it.1]? }) ∧
    pair.cortinas =
      ((p.cortinaTrackIds.idsOrEmpty.filterMap (trackMapGet lib)).take 6).map some := by
  cases hc : p.cortinaTrackIds with
  | nonArray => simp [hydratePlan, hts, hc] at hok
  | absent =>
    simp only [hydratePlan, hts, hc, Except.ok.injEq] at hok
    subst hok
    exact ⟨rfl, rfl⟩
  | arr ids =>
    simp only [hydratePlan, hts, hc, Except.ok.injEq] at hok
    subst hok
    exact ⟨rfl, rfl⟩

theorem hydratePlan_eq_error_iff (p : RawPlan) (lib : Library) :
    hydratePlan p lib = Except.error HydrateError.typeError ↔
      p.tandas = none ∨ p.cortinaTrackIds = CortinaField.nonArray := by
  cases hts : p.tandas <;> cases hc : p.cortinaTrackIds <;>
    simp [hydratePlan, hts, hc]

theorem validatePlanShape_some_iff (p : RawPlan) :
    validatePlanShape (some p) = true ↔
      ∃ ts, p.tandas = some ts ∧ ts.length = 6 ∧
        ∀ (i : Nat) (t : RawTanda), ts[i]? = some t →
          t.type = patternTypes[i]? ∧ t.trackIds.isSome = true := by
  cases hp : p.tandas with
  | none => simp [validatePlanShape, hp]
  | some ts =>
    simp only [validatePlanShape, hp, Option.some.injEq, exists_eq_left',
      Bool.and_eq_true, beq_iff_eq, List.all_eq_true]
    rw [List.forall_mem_enum]
    constructor
    · rintro ⟨hlen, hall⟩
      refine ⟨hlen, fun i t hit => ?_⟩
      obtain ⟨hi, rfl⟩ := List.getElem?_eq_some.1 hit
      have := hall i hi
      simp only [Bool.and_eq_true, beq_iff_eq, Option.isSome] at this ⊢
      exact this
    · rintro ⟨hlen, hall⟩
      refine ⟨hlen, fun i hi => ?_⟩
      have := hall i ts[i] (List.getElem?_eq_some.2 ⟨hi, rfl⟩)
      simp only [Bool.and_eq_true, beq_iff_eq]
      exact this

/-- C3: validate accepts exactly the raw plans with a present 6-entry tanda
array whose entries match the fixed style sequence positionally and carry a
present (array-typed) trackIds field; nothing else — in particular no
track-id resolvability and no cortina field — is inspected. -/
theorem C3_validatePlanShape_iff (plan : Option RawPlan) :
    validatePlanShape plan = true ↔
      ∃ p ts, plan = some p ∧ p.tandas = some ts ∧ ts.length = 6 ∧
        ∀ (i : Nat) (t : RawTanda), ts[i]? = some t →
          t.type = patternTypes[i]? ∧ t.trackIds.isSome = true := by
  cases plan with
  | none => simp [validatePlanShape]
  | some p =>
    rw [validatePlanShape_some_iff]
    constructor
    · rintro ⟨ts, h⟩; exact ⟨p, ts, rfl, h⟩
    · rintro ⟨q, ts, hq, h⟩; cases hq; exact ⟨ts, h⟩

theorem normalizePlaylist_eq (p : Playlist) (now : String) :
    normalizePlaylist p now = { p with updatedAt := now } := by
  simp [normalizePlaylist]

/-- C10 counterexample: a raw plan with well-shaped tandas whose
cortinaTrackIds holds a truthy non-array value is accepted by validate, yet
hydrating it throws a TypeError instead of producing an empty cortina
sequence. -/
theorem C10_counterexample :
    validatePlanShape (some badCortinaPlan) = true ∧
    hydratePlan badCortinaPlan sampleLib = Except.error HydrateError.typeError := by
  exact ⟨by decide, rfl⟩

/-- C10 amended: plan validation ignores the cortinaTrackIds field entirely
(any two field values validate alike), and hydrating a well-shaped plan whose
cortinaTrackIds is absent (or falsy) succeeds with an empty cortina sequence
— so an agent playlist can be created with zero cortinas; but a present
truthy non-array cortinaTrackIds makes hydration throw a TypeError rather
than yield empty cortinas. -/
theorem C10_validate_ignores_cortinas (p : RawPlan) (c c2 : CortinaField)
    (lib : Library) (ts : List RawTanda) :
    validatePlanShape (some { p with cortinaTrackIds := c }) =
      validatePlanShape (some { p with cortinaTrackIds := c2 }) ∧
    (∃ pair, hydratePlan { tandas := some ts, cortinaTrackIds := .absent } lib =
        Except.ok pair ∧ pair.cortinas = []) ∧
    hydratePlan { tandas := some ts, cortinaTrackIds := .nonArray } lib =
      Except.error HydrateError.typeError := by
  exact ⟨by simp [validatePlanShape], ⟨_, rfl, rfl⟩, rfl⟩

/-- C8: replace-track with a replacement id absent from the catalog fails
with the NotFound-style condition and leaves the persisted playlist document
unchanged (no partial mutation, no timestamp refresh). -/
theorem C8_replaceTrack_notFound (p : Playlist) (lib : Library) (ti tri : Nat)
    (rid now : String) (h : ∀ t ∈ lib.tracks, t.id ≠ rid) :
    replaceTrack p lib ti tri rid now = .error .notFound ∧
    replaceTrackPersisted p lib ti tri rid now = p := by
  have hf : lib.tracks.find? (fun t => t.id == rid) = none := by
    apply List.find?_eq_none.2
    intro t ht
    simp [h t ht]
  exact ⟨by simp [replaceTrack, hf], by simp [replaceTrackPersisted, replaceTrack, hf]⟩

theorem C8_replaceTrack_notFound_witness :
    (∀ t ∈ sampleLib.tracks, t.id ≠ "ZZ") ∧
    (replaceTrack samplePlaylist sampleLib 0 0 "ZZ" "t9" = .error .notFound ∧
      replaceTrackPersisted samplePlaylist sampleLib 0 0 "ZZ" "t9" = samplePlaylist) :=
  ⟨by decide, C8_replaceTrack_notFound samplePlaylist sampleLib 0 0 "ZZ" "t9" (by decide)⟩

/-- C6 counterexample: `fromIndex = -1` is not an integer within [0, 5], yet
the request is not rejected — the persisted playlist changes (the splice
clamps -1 to the last position, so the last tanda/cortina pair moves to the
front). -/
theorem C6_counterexample :
    moveTandaPersisted samplePlaylist (.num (-1)) (.num 0) "t1" ≠ samplePlaylist := by
  decide

/-- C6 amended: move-tanda fails with the InvalidArgument condition exactly
when fromIndex or toIndex is not of number type, and in that case the
persisted playlist is unchanged; number-typed indices — non-integers and
out-of-range values included — always pass the guard. -/
theorem C6_moveTanda_guard (p : Playlist) (x y : MoveArg) (now : String) :
    (moveTanda p x y now = .error .invalidArgument ↔
      x = .nonNumber ∨ y = .nonNumber) ∧
    moveTandaPersisted p .nonNumber y now = p ∧
    moveTandaPersisted p x .nonNumber now = p := by
  refine ⟨⟨fun h => ?_, fun h => ?_⟩, ?_, ?_⟩
  · cases x with
    | nonNumber => exact Or.inl rfl
    | num fi =>
      cases y with
      | nonNumber => exact Or.inr rfl
      | num ti =>
        exfalso
        cases hr : (spliceRemove1 p.tandas fi).2 <;> simp [moveTanda, hr] at h
  · rcases h with rfl | rfl
    · simp [moveTanda]
    · cases x <;> simp [moveTanda]
  · cases y <;> simp [moveTandaPersisted, moveTanda]
  · cases x <;> simp [moveTandaPersisted, moveTanda]

/-- C9: replace-track with a catalog-resident replacement overwrites only the
single track at (tandaIndex, trackIndex): the affected tanda keeps its
length, id, type, reasoning and all other members; every other tanda, the
cortinas, and every header field except updatedAt are unchanged; no
de-duplication against the rest of the playlist is performed (the statement
imposes no freshness condition on the replacement, as the witness with an
already-present track shows). -/
theorem C9_replaceTrack_frame (p : Playlist) (lib : Library) (ti tri : Nat)
    (rid now : String) (r : Track) (tan : Tanda)
    (hr : lib.tracks.find? (fun t => t.id == rid) = some r)
    (htan : p.tandas[ti]? = some tan)
    (htri : tri < tan.tracks.length) :
    ∃ p2, replaceTrack p lib ti tri rid now = .ok p2 ∧
      p2.tandas.length = p.tandas.length ∧
      p2.tandas[ti]? = some { tan with tracks := tan.tracks.set tri r } ∧
      (∀ j, j ≠ ti → p2.tandas[j]? = p.tandas[j]?) ∧
      (tan.tracks.set tri r).length = tan.tracks.length ∧
      (tan.tracks.set tri r)[tri]? = some r ∧
      (∀ k, k ≠ tri → (tan.tracks.set tri r)[k]? = tan.tracks[k]?) ∧
      p2.cortinas = p.cortinas ∧ p2.id = p.id ∧ p2.name = p.name ∧
      p2.prompt = p.prompt ∧ p2.generationSource = p.generationSource ∧
      p2.createdAt = p.createdAt ∧ p2.updatedAt = now := by
  refine ⟨{ p with
      tandas := p.tandas.modify (fun t => { t with tracks := t.tracks.set tri r }) ti,
      updatedAt := now },
    by simp [replaceTrack, hr, normalizePlaylist_eq], ?_, ?_, ?_, ?_, ?_, ?_,
    rfl, rfl, rfl, rfl, rfl, rfl, rfl⟩
  · simp [List.length_modify]
  · simp [List.getElem?_modify_eq, htan]
  · intro j hj
    simp [List.getElem?_modify_ne _ _ (fun h => hj h.symm)]
  · simp
  · simp [List.getElem?_set_self, htri]
  · intro k hk
    simp [List.getElem?_set_ne (fun h => hk h.symm)]

theorem C9_replaceTrack_frame_witness :
    (sampleLib.tracks.find? (fun t => t.id == "T2") = some (mkTrack "T2" "tango")) ∧
    (samplePlaylist.tandas[0]? = some (sampleTanda 1 "tango" [mkTrack "T1" "tango"])) ∧
    (0 < (sampleTanda 1 "tango" [mkTrack "T1" "tango"]).tracks.length) ∧
    (∃ p2, replaceTrack samplePlaylist sampleLib 0 0 "T2" "t9" = .ok p2 ∧
      p2.tandas.length = samplePlaylist.tandas.length ∧
      p2.tandas[0]? = some { sampleTanda 1 "tango" [mkTrack "T1" "tango"] with
        tracks := (sampleTanda 1 "tango" [mkTrack "T1" "tango"]).tracks.set 0
          (mkTrack "T2" "tango") } ∧
      (∀ j, j ≠ 0 → p2.tandas[j]? = samplePlaylist.tandas[j]?) ∧
      ((sampleTanda 1 "tango" [mkTrack "T1" "tango"]).tracks.set 0
          (mkTrack "T2" "tango")).length =
        (sampleTanda 1 "tango" [mkTrack "T1" "tango"]).tracks.length ∧
      ((sampleTanda 1 "tango" [mkTrack "T1" "tango"]).tracks.set 0
          (mkTrack "T2" "tango"))[0]? = some (mkTrack "T2" "tango") ∧
      (∀ k, k ≠ 0 → ((sampleTanda 1 "tango" [mkTrack "T1" "tango"]).tracks.set 0
          (mkTrack "T2" "tango"))[k]? =
        (sampleTanda 1 "tango" [mkTrack "T1" "tango"]).tracks[k]?) ∧
      p2.cortinas = samplePlaylist.cortinas ∧ p2.id = samplePlaylist.id ∧
      p2.name = samplePlaylist.name ∧ p2.prompt = samplePlaylist.prompt ∧
      p2.generationSource = samplePlaylist.generationSource ∧
      p2.createdAt = samplePlaylist.createdAt ∧ p2.updatedAt = "t9") :=
  ⟨by decide, by decide, by decide,
    C9_replaceTrack_frame samplePlaylist sampleLib 0 0 "T2" "t9"
      (mkTrack "T2" "tango") (sampleTanda 1 "tango" [mkTrack "T1" "tango"])
      (by decide) (by decide) (by decide)⟩

/-- C5 counterexample: for the validated plan whose cortina references are
["ZZ", "K1"] with "ZZ" unresolvable, hydration succeeds but the cortina
sequence is the single-slot list [K1]: it does not have 6 slots, and position
0 holds the track referenced at position 1 — the unresolved reference
produced no absent slot, it shifted the later cortina left. -/
theorem C5_counterexample :
    validatePlanShape (some shiftPlan) = true ∧
    (hydratePlan shiftPlan sampleLib).map PlanPair.cortinas =
      Except.ok [some (mkTrack "K1" "cortina")] := by
  exact ⟨by decide, rfl⟩

/-- C5 amended: whenever hydration succeeds, the cortina sequence is the
compaction of the resolvable references, truncated to 6: its length is the
number of resolvable references clamped to 6, and every slot holds a catalog
track (never an absent marker); unresolved references contribute no slot, so
later cortinas shift left and index alignment with the tandas is not
preserved. -/
theorem C5_hydrate_cortinas (plan : RawPlan) (lib : Library) (pair : PlanPair)
    (hok : hydratePlan plan lib = Except.ok pair) :
    pair.cortinas.length =
      min 6 (plan.cortinaTrackIds.idsOrEmpty.countP
        (fun i => (trackMapGet lib i).isSome)) ∧
    ∀ c ∈ pair.cortinas, ∃ t, c = some t ∧ t ∈ lib.tracks := by
  obtain ⟨ts, hts⟩ : ∃ ts, plan.tandas = some ts := by
    cases hts : plan.tandas with
    | none => simp [hydratePlan, hts] at hok
    | some ts => exact ⟨ts, rfl⟩
  obtain ⟨-, hcor⟩ := hydratePlan_ok_shape hts hok
  constructor
  · rw [hcor]
    simp [List.length_take, length_filterMap_eq_countP]
  · intro c hc
    rw [hcor] at hc
    simp only [List.mem_map] at hc
    obtain ⟨t, ht, rfl⟩ := hc
    refine ⟨t, rfl, ?_⟩
    have ht2 := List.mem_of_mem_take ht
    obtain ⟨i, -, hi⟩ := List.mem_filterMap.1 ht2
    exact trackMapGet_mem hi

theorem C5_hydrate_cortinas_witness :
    hydratePlan shiftPlan sampleLib = Except.ok shiftPair ∧
    (shiftPair.cortinas.length =
        min 6 (shiftPlan.cortinaTrackIds.idsOrEmpty.countP
          (fun i => (trackMapGet sampleLib i).isSome)) ∧
      ∀ c ∈ shiftPair.cortinas, ∃ t, c = some t ∧ t ∈ sampleLib.tracks) :=
  ⟨rfl, C5_hydrate_cortinas shiftPlan sampleLib shiftPair rfl⟩

/-- C4: for a validated raw plan, hydrate only emits catalog tracks
(unresolvable ids are dropped), produces 6 tandas none of which exceeds the
Pattern Slot size at its position, and sets each tanda's reasoning to the raw
entry's text, replaced by the fixed generic string exactly when that text is
absent or empty. -/
theorem C4_hydrate_bounds (plan : RawPlan) (lib : Library) (pair : PlanPair)
    (hv : validatePlanShape (some plan) = true)
    (hok : hydratePlan plan lib = Except.ok pair) :
    (∀ t ∈ pair.tandas, ∀ tr ∈ t.tracks, tr ∈ lib.tracks) ∧
    pair.tandas.length = 6 ∧
    (∀ (i : Nat) (t : Tanda) (n : Nat), pair.tandas[i]? = some t →
      patternSizes[i]? = some n → t.tracks.length ≤ n) ∧
    (∀ (i : Nat) (rt : RawTanda) (ht : Tanda),
      (plan.tandas.getD [])[i]? = some rt →
      pair.tandas[i]? = some ht →
      ((rt.reasoning = none ∨ rt.reasoning = some "") → ht.reasoning = defaultReasoning) ∧
      (∀ s, rt.reasoning = some s → s ≠ "" → ht.reasoning = s)) := by
  obtain ⟨ts, hts, hlen, -⟩ := validatePlanShape_some_iff plan |>.1 hv
  obtain ⟨htd, -⟩ := hydratePlan_ok_shape hts hok
  refine ⟨?_, ?_, ?_, ?_⟩
  · intro t ht tr htr
    rw [htd] at ht
    simp only [List.mem_map] at ht
    obtain ⟨⟨i, rt⟩, -, rfl⟩ := ht
    have htr2 : tr ∈ (rt.trackIds.getD []).filterMap (trackMapGet lib) := by
      cases h : patternSizes[i]? with
      | none => simpa [sliceTo, h] using htr
      | some n => exact List.mem_of_mem_take (by simpa [sliceTo, h] using htr)
    obtain ⟨id, -, hid⟩ := List.mem_filterMap.1 htr2
    exact trackMapGet_mem hid
  · rw [htd]
    simp [hlen]
  · intro i t n hget hn
    rw [htd] at hget
    simp only [List.getElem?_map, List.getElem?_enum] at hget
    cases hrt : ts[i]? with
    | none => simp [hrt] at hget
    | some rt =>
      rw [hrt] at hget
      simp only [Option.map_some', Option.some.injEq] at hget
      subst hget
      simp [sliceTo, hn]
  · intro i rt ht hrt hget
    rw [hts, Option.getD_some] at hrt
    rw [htd] at hget
    simp only [List.getElem?_map, List.getElem?_enum, hrt,
      Option.map_some', Option.some.injEq] at hget
    subst hget
    constructor
    · rintro (hr | hr) <;> simp [reasoningOrDefault, hr]
    · intro s hs hne
      simp [reasoningOrDefault, hs, hne]

theorem C4_hydrate_bounds_witness :
    validatePlanShape (some shiftPlan) = true ∧
    hydratePlan shiftPlan sampleLib = Except.ok shiftPair ∧
    ((∀ t ∈ shiftPair.tandas, ∀ tr ∈ t.tracks, tr ∈ sampleLib.tracks) ∧
      shiftPair.tandas.length = 6 ∧
      (∀ (i : Nat) (t : Tanda) (n : Nat),
        shiftPair.tandas[i]? = some t →
        patternSizes[i]? = some n → t.tracks.length ≤ n) ∧
      (∀ (i : Nat) (rt : RawTanda) (ht : Tanda),
        (shiftPlan.tandas.getD [])[i]? = some rt →
        shiftPair.tandas[i]? = some ht →
        ((rt.reasoning = none ∨ rt.reasoning = some "") →
          ht.reasoning = defaultReasoning) ∧
        (∀ s, rt.reasoning = some s → s ≠ "" → ht.reasoning = s))) :=
  ⟨by decide, rfl, C4_hydrate_bounds shiftPlan sampleLib shiftPair (by decide) rfl⟩

theorem buildFallbackTandas_length (sh : List Track → List Track) (lib : Library) :
    ∀ (slots : List Slot) (idx : Nat) (used : List String),
      (buildFallbackTandas sh lib slots idx used).1.length = slots.length
  | [], _, _ => rfl
  | _ :: rest, idx, used => by
    simp [buildFallbackTandas, buildFallbackTandas_length sh lib rest]

theorem fallbackPlaylistPlan_tandas_length (sh : List Track → List Track) (lib : Library) :
    (fallbackPlaylistPlan sh lib).tandas.length = 6 := by
  simp [fallbackPlaylistPlan, buildFallbackTandas_length, pattern]

theorem planFromOutcome_eq_some {outcome : ProposalOutcome} {p : RawPlan} :
    planFromOutcome outcome = some p ↔ outcome = .candidate (some p) := by
  cases outcome <;> simp [planFromOutcome]

/-- C1 counterexample: with a non-empty library, a shape-valid candidate
whose cortinaTrackIds is a truthy non-array value makes playlist creation
escape with an uncaught TypeError (thrown by hydration, outside the
handler's try/catch): no playlist is returned. -/
theorem C1_counterexample :
    sampleLib.tracks ≠ [] ∧
    validatePlanShape (some badCortinaPlan) = true ∧
    createPlaylist (shuffle (fun i => i)) sampleLib
      (.candidate (some badCortinaPlan)) "pl" "N" "" "t1" =
      Except.error HydrateError.typeError := by
  exact ⟨by decide, by decide, rfl⟩

/-- C1 amended: with a non-empty library, playlist creation absorbs every
failure of the proposer itself — unconfigured, thrown call, unparseable
output (modelled as a throw), null or shape-invalid candidate all fall back
— and whenever a playlist is returned it has exactly 6 tandas with
generationSource "agent" precisely when a shape-valid candidate was
obtained, "fallback" otherwise; but for a shape-valid candidate whose
cortinaTrackIds is a truthy non-array value, hydration throws outside the
handler's try/catch and that planning-side failure escapes with no playlist
— and that is the only escaping case. -/
theorem C1_createPlaylist_boundary (sh : List Track → List Track)
    (lib : Library) (outcome : ProposalOutcome) (id name prompt now : String)
    (_hne : lib.tracks ≠ []) :
    (createPlaylist sh lib outcome id name prompt now =
        Except.error HydrateError.typeError ↔
      ∃ p, outcome = .candidate (some p) ∧ validatePlanShape (some p) = true ∧
        p.cortinaTrackIds = CortinaField.nonArray) ∧
    (∀ pl, createPlaylist sh lib outcome id name prompt now = Except.ok pl →
      pl.tandas.length = 6 ∧
      (pl.generationSource = "agent" ↔
        ∃ p, outcome = .candidate (some p) ∧ validatePlanShape (some p) = true) ∧
      (pl.generationSource = "agent" ∨ pl.generationSource = "fallback")) := by
  cases hpo : planFromOutcome outcome with
  | none =>
    have hnc : ∀ p : RawPlan, outcome ≠ .candidate (some p) := by
      intro p hc
      rw [hc] at hpo
      simp [planFromOutcome] at hpo
    have hcp : createPlaylist sh lib outcome id name prompt now =
        Except.ok (normalizePlaylist
          { id := id, name := name, prompt := prompt,
            generationSource := "fallback", createdAt := now, updatedAt := "",
            tandas := (fallbackPlaylistPlan sh lib).tandas,
            cortinas := (fallbackPlaylistPlan sh lib).cortinas } now) := by
      simp [createPlaylist, hpo, validatePlanShape]
    constructor
    · rw [hcp]
      refine ⟨fun h => by simp at h, ?_⟩
      rintro ⟨p, hc, -, -⟩
      exact absurd hc (hnc p)
    · intro pl hpl
      rw [hcp] at hpl
      simp only [Except.ok.injEq] at hpl
      subst hpl
      rw [normalizePlaylist_eq]
      refine ⟨fallbackPlaylistPlan_tandas_length sh lib, ?_, Or.inr rfl⟩
      refine ⟨fun h => by simp at h, ?_⟩
      rintro ⟨p, hc, -⟩
      exact absurd hc (hnc p)
  | some p =>
    have hoc : outcome = .candidate (some p) := planFromOutcome_eq_some.1 hpo
    cases hv : validatePlanShape (some p) with
    | false =>
      have hcp : createPlaylist sh lib outcome id name prompt now =
          Except.ok (normalizePlaylist
            { id := id, name := name, prompt := prompt,
              generationSource := "fallback", createdAt := now, updatedAt := "",
              tandas := (fallbackPlaylistPlan sh lib).tandas,
              cortinas := (fallbackPlaylistPlan sh lib).cortinas } now) := by
        simp [createPlaylist, hpo, hv]
      constructor
      · rw [hcp]
        refine ⟨fun h => by simp at h, ?_⟩
        rintro ⟨q, hq, hvq, -⟩
        rw [hoc] at hq
        simp only [ProposalOutcome.candidate.injEq, Option.some.injEq] at hq
        subst hq
        exact absurd hvq (by simp [hv])
      · intro pl hpl
        rw [hcp] at hpl
        simp only [Except.ok.injEq] at hpl
        subst hpl
        rw [normalizePlaylist_eq]
        refine ⟨fallbackPlaylistPlan_tandas_length sh lib, ?_, Or.inr rfl⟩
        refine ⟨fun h => by simp at h, ?_⟩
        rintro ⟨q, hq, hvq⟩
        rw [hoc] at hq
        simp only [ProposalOutcome.candidate.injEq, Option.some.injEq] at hq
        subst hq
        exact absurd hvq (by simp [hv])
    | true =>
      obtain ⟨ts, hts, hlen, -⟩ := (validatePlanShape_some_iff p).1 hv
      cases hhy : hydratePlan p lib with
      | error e =>
        cases e
        have hcna : p.cortinaTrackIds = CortinaField.nonArray := by
          rcases (hydratePlan_eq_error_iff p lib).1 hhy with h1 | h2
          · rw [hts] at h1
            exact absurd h1 (by simp)
          · exact h2
        have hcp : createPlaylist sh lib outcome id name prompt now =
            Except.error HydrateError.typeError := by
          simp [createPlaylist, hpo, hv, hhy]
        constructor
        · rw [hcp]
          exact ⟨fun _ => ⟨p, hoc, hv, hcna⟩, fun _ => rfl⟩
        · intro pl hpl
          rw [hcp] at hpl
          simp at hpl
      | ok pair =>
        obtain ⟨htd, -⟩ := hydratePlan_ok_shape hts hhy
        have hcp : createPlaylist sh lib outcome id name prompt now =
            Except.ok (normalizePlaylist
              { id := id, name := name, prompt := prompt,
                generationSource := "agent", createdAt := now, updatedAt := "",
                tandas := pair.tandas, cortinas := pair.cortinas } now) := by
          simp [createPlaylist, hpo, hv, hhy]
        constructor
        · rw [hcp]
          refine ⟨fun h => by simp at h, ?_⟩
          rintro ⟨q, hq, -, hqc⟩
          rw [hoc] at hq
          simp only [ProposalOutcome.candidate.injEq, Option.some.injEq] at hq
          subst hq
          have herr := (hydratePlan_eq_error_iff p lib).2 (Or.inr hqc)
          rw [hhy] at herr
          exact absurd herr (by simp)
        · intro pl hpl
          rw [hcp] at hpl
          simp only [Except.ok.injEq] at hpl
          subst hpl
          rw [normalizePlaylist_eq]
          refine ⟨?_, ?_, Or.inl rfl⟩
          · show pair.tandas.length = 6
            rw [htd]
            simp [hlen]
          · exact ⟨fun _ => ⟨p, hoc, hv⟩, fun _ => rfl⟩

theorem C1_createPlaylist_boundary_witness :
    sampleLib.tracks ≠ [] ∧
    ((createPlaylist (shuffle (fun _ => 0)) sampleLib (.threw "boom") "pl" "N" "" "t1" =
        Except.error HydrateError.typeError ↔
      ∃ p, ProposalOutcome.threw "boom" = .candidate (some p) ∧
        validatePlanShape (some p) = true ∧
        p.cortinaTrackIds = CortinaField.nonArray) ∧
    (∀ pl, createPlaylist (shuffle (fun _ => 0)) sampleLib (.threw "boom")
        "pl" "N" "" "t1" = Except.ok pl →
      pl.tandas.length = 6 ∧
      (pl.generationSource = "agent" ↔
        ∃ p, ProposalOutcome.threw "boom" = .candidate (some p) ∧
          validatePlanShape (some p) = true) ∧
      (pl.generationSource = "agent" ∨ pl.generationSource = "fallback"))) :=
  ⟨by decide,
    C1_createPlaylist_boundary (shuffle (fun _ => 0)) sampleLib
      (.threw "boom") "pl" "N" "" "t1" (by decide)⟩

theorem perm_insertIdx_cons (a : α) :
    ∀ (l : List α) (k : Nat), k ≤ l.length → (l.insertIdx k a).Perm (a :: l)
  | l, 0, _ => by simp [List.insertIdx_zero]
  | [], k + 1, h => by simp at h
  | b :: l, k + 1, h => by
    rw [List.insertIdx_succ_cons]
    exact ((perm_insertIdx_cons a l k (by simpa using h)).cons b).trans
      (List.Perm.swap a b l)

theorem perm_cons_eraseIdx (a : α) :
    ∀ (l : List α) (k : Nat), l[k]? = some a → (a :: l.eraseIdx k).Perm l
  | [], k, h => by simp at h
  | b :: l, 0, h => by
    simp only [List.getElem?_cons_zero, Option.some.injEq] at h
    subst h
    simp [List.eraseIdx]
  | b :: l, k + 1, h => by
    simp only [List.getElem?_cons_succ] at h
    rw [List.eraseIdx_cons_succ]
    exact (List.Perm.swap b a _).trans ((perm_cons_eraseIdx a l k h).cons b)

theorem insertIdx_eraseIdx_self (a : α) :
    ∀ (l : List α) (k : Nat), l[k]? = some a → (l.eraseIdx k).insertIdx k a = l
  | [], k, h => by simp at h
  | b :: l, 0, h => by
    simp only [List.getElem?_cons_zero, Option.some.injEq] at h
    subst h
    simp [List.eraseIdx, List.insertIdx_zero]
  | b :: l, k + 1, h => by
    simp only [List.getElem?_cons_succ] at h
    rw [List.eraseIdx_cons_succ, List.insertIdx_succ_cons,
      insertIdx_eraseIdx_self a l k h]

theorem getElem?_insertIdx_self (a : α) (l : List α) (k : Nat) (h : k ≤ l.length) :
    (l.insertIdx k a)[k]? = some a := by
  have hlen : k < (l.insertIdx k a).length := by
    rw [List.length_insertIdx _ _ h]
    omega
  rw [List.getElem?_eq_getElem hlen, List.getElem_insertIdx_self l a k h]

theorem zip_eraseIdx :
    ∀ (l : List α) (m : List β) (k : Nat),
      (l.eraseIdx k).zip (m.eraseIdx k) = (l.zip m).eraseIdx k
  | [], m, k => by simp
  | a :: l, [], k => by simp
  | a :: l, b :: m, 0 => rfl
  | a :: l, b :: m, k + 1 => by
    simp only [List.eraseIdx_cons_succ, List.zip_cons_cons]
    rw [zip_eraseIdx l m k]

theorem zip_insertIdx :
    ∀ (l : List α) (m : List β) (k : Nat) (a : α) (b : β), l.length = m.length →
      (l.insertIdx k a).zip (m.insertIdx k b) = (l.zip m).insertIdx k (a, b)
  | l, m, 0, a, b, _ => by simp [List.insertIdx_zero]
  | [], [], k + 1, a, b, _ => by simp [List.insertIdx_succ_nil]
  | [], b' :: m, k + 1, a, b, h => by simp at h
  | a' :: l, [], k + 1, a, b, h => by simp at h
  | a' :: l, b' :: m, k + 1, a, b, h => by
    simp only [List.length_cons, Nat.add_right_cancel_iff] at h
    simp only [List.insertIdx_succ_cons, List.zip_cons_cons]
    rw [zip_insertIdx l m k a b h]

/-- C7: for a 6-tanda/6-cortina playlist and integer indices in [0, 5],
move-tanda succeeds and permutes the index-aligned (tanda, cortina) pairs:
the multiset of pairs is preserved, the pair originally at fromIndex ends up
at toIndex, and moving an index onto itself returns the identical playlist
with only updatedAt re-stamped. -/
theorem C7_moveTanda_permutation (p : Playlist) (fi ti : Int) (now : String)
    (h6t : p.tandas.length = 6) (h6c : p.cortinas.length = 6)
    (hfi0 : 0 ≤ fi) (hfi5 : fi ≤ 5) (hti0 : 0 ≤ ti) (hti5 : ti ≤ 5) :
    ∃ p2, moveTanda p (.num fi) (.num ti) now = .ok p2 ∧
      (p2.tandas.zip p2.cortinas).Perm (p.tandas.zip p.cortinas) ∧
      (p2.tandas.zip p2.cortinas)[ti.toNat]? = (p.tandas.zip p.cortinas)[fi.toNat]? ∧
      (fi = ti → p2 = { p with updatedAt := now }) := by
  have hnf : fi.toNat < p.tandas.length := by rw [h6t]; omega
  have hnfc : fi.toNat < p.cortinas.length := by rw [h6c]; omega
  have hkt : spliceIndex p.tandas.length fi = fi.toNat := by
    rw [spliceIndex, if_neg (by omega), h6t]
    omega
  have hkc : spliceIndex p.cortinas.length fi = fi.toNat := by
    rw [spliceIndex, if_neg (by omega), h6c]
    omega
  have hT : p.tandas[fi.toNat]? = some p.tandas[fi.toNat] := List.getElem?_eq_getElem hnf
  have hC : p.cortinas[fi.toNat]? = some p.cortinas[fi.toNat] := List.getElem?_eq_getElem hnfc
  have hleT : (p.tandas.eraseIdx fi.toNat).length = 5 := by
    have := List.length_eraseIdx_add_one hnf
    omega
  have hleC : (p.cortinas.eraseIdx fi.toNat).length = 5 := by
    have := List.length_eraseIdx_add_one hnfc
    omega
  have hsiT : spliceIndex (p.tandas.eraseIdx fi.toNat).length ti = ti.toNat := by
    rw [spliceIndex, if_neg (by omega), hleT]
    omega
  have hsiC : spliceIndex (p.cortinas.eraseIdx fi.toNat).length ti = ti.toNat := by
    rw [spliceIndex, if_neg (by omega), hleC]
    omega
  have hmv : moveTanda p (.num fi) (.num ti) now = .ok (normalizePlaylist { p with
      tandas := (p.tandas.eraseIdx fi.toNat).insertIdx ti.toNat p.tandas[fi.toNat],
      cortinas := (p.cortinas.eraseIdx fi.toNat).insertIdx ti.toNat
        p.cortinas[fi.toNat] } now) := by
    simp only [moveTanda, spliceRemove1, spliceInsert, hkt, hkc, hT, hC, hsiT, hsiC,
      Option.getD_some]
  rw [hmv, normalizePlaylist_eq]
  have hntle : ti.toNat ≤ (p.tandas.eraseIdx fi.toNat).length := by omega
  have hzip : ((p.tandas.eraseIdx fi.toNat).insertIdx ti.toNat p.tandas[fi.toNat]).zip
        ((p.cortinas.eraseIdx fi.toNat).insertIdx ti.toNat p.cortinas[fi.toNat]) =
      ((p.tandas.zip p.cortinas).eraseIdx fi.toNat).insertIdx ti.toNat
        (p.tandas[fi.toNat], p.cortinas[fi.toNat]) := by
    rw [zip_insertIdx _ _ _ _ _ (by omega), zip_eraseIdx]
  have hzget : (p.tandas.zip p.cortinas)[fi.toNat]? =
      some (p.tandas[fi.toNat], p.cortinas[fi.toNat]) := by
    rw [List.getElem?_zip_eq_some]
    exact ⟨hT, hC⟩
  have hzlen : ((p.tandas.zip p.cortinas).eraseIdx fi.toNat).length = 5 := by
    have hzl : fi.toNat < (p.tandas.zip p.cortinas).length := by
      rw [List.length_zip, h6t, h6c]
      omega
    have := List.length_eraseIdx_add_one hzl
    rw [List.length_zip, h6t, h6c] at this
    omega
  refine ⟨_, rfl, ?_, ?_, ?_⟩
  · rw [hzip]
    exact (perm_insertIdx_cons _ _ _ (by omega)).trans
      (perm_cons_eraseIdx _ _ _ hzget)
  · rw [hzip, getElem?_insertIdx_self _ _ _ (by omega), hzget]
  · intro hfiti
    subst hfiti
    rw [insertIdx_eraseIdx_self _ _ _ hT, insertIdx_eraseIdx_self _ _ _ hC]

theorem C7_moveTanda_permutation_witness :
    samplePlaylist.tandas.length = 6 ∧ samplePlaylist.cortinas.length = 6 ∧
    (0 : Int) ≤ 1 ∧ (1 : Int) ≤ 5 ∧ (0 : Int) ≤ 3 ∧ (3 : Int) ≤ 5 ∧
    (∃ p2, moveTanda samplePlaylist (.num 1) (.num 3) "t9" = .ok p2 ∧
      (p2.tandas.zip p2.cortinas).Perm
        (samplePlaylist.tandas.zip samplePlaylist.cortinas) ∧
      (p2.tandas.zip p2.cortinas)[(3 : Int).toNat]? =
        (samplePlaylist.tandas.zip samplePlaylist.cortinas)[(1 : Int).toNat]? ∧
      ((1 : Int) = 3 → p2 = { samplePlaylist with updatedAt := "t9" })) :=
  ⟨by decide, by decide, by decide, by decide, by decide, by decide,
    C7_moveTanda_permutation samplePlaylist 1 3 "t9" (by decide) (by decide)
      (by decide) (by decide) (by decide) (by decide)⟩

theorem cons_set_perm (x : α) :
    ∀ (l : List α) (m : Nat) (y : α), l[m]? = some y → (y :: l.set m x).Perm (x :: l)
  | [], m, y, h => by simp at h
  | b :: t, 0, y, h => by
    simp only [List.getElem?_cons_zero, Option.some.injEq] at h
    subst h
    exact List.Perm.swap x b t
  | b :: t, k + 1, y, h => by
    simp only [List.getElem?_cons_succ] at h
    rw [List.set_cons_succ]
    exact (List.Perm.swap b y _).trans
      (((cons_set_perm x t k y h).cons b).trans (List.Perm.swap x b t))

theorem swapIdx_perm : ∀ (l : List α) (i j : Nat), (swapIdx l i j).Perm l
  | [], i, j => by simp [swapIdx]
  | a :: t, 0, 0 => by simp [swapIdx]
  | a :: t, 0, m + 1 => by
    cases hy : t[m]? with
    | none => simp [swapIdx, hy]
    | some y =>
      simp only [swapIdx, List.getElem?_cons_zero, List.getElem?_cons_succ, hy,
        List.set_cons_zero, List.set_cons_succ]
      exact cons_set_perm a t m y hy
  | a :: t, n + 1, 0 => by
    cases hx : t[n]? with
    | none => simp [swapIdx, hx]
    | some x =>
      simp only [swapIdx, List.getElem?_cons_zero, List.getElem?_cons_succ, hx,
        List.set_cons_succ, List.set_cons_zero]
      exact cons_set_perm a t n x hx
  | a :: t, n + 1, m + 1 => by
    cases hx : t[n]? with
    | none => simp [swapIdx, hx]
    | some x =>
      cases hy : t[m]? with
      | none => simp [swapIdx, hx, hy]
      | some y =>
        simp only [swapIdx, List.getElem?_cons_succ, hx, hy, List.set_cons_succ]
        have ih := swapIdx_perm t n m
        simp only [swapIdx, hx, hy] at ih
        exact ih.cons a

theorem shuffleAux_perm (seed : Nat → Nat) :
    ∀ (l : List α) (n : Nat), (shuffleAux seed l n).Perm l
  | _, 0 => List.Perm.refl _
  | l, n + 1 =>
    (shuffleAux_perm seed _ n).trans (swapIdx_perm l (n + 1) (seed (n + 1) % (n + 2)))

theorem shuffle_perm (seed : Nat → Nat) (l : List α) : (shuffle seed l).Perm l :=
  shuffleAux_perm seed l (l.length - 1)

theorem mem_groupByStyle {lib : Library} {s : String} {t : Track} :
    t ∈ groupByStyle lib s ↔ t ∈ lib.tracks ∧ bucketOf t = s := by
  simp [groupByStyle, List.mem_filter]

theorem groupByStyle_ids_nodup {lib : Library} (hn : (lib.tracks.map Track.id).Nodup)
    (s : String) : ((groupByStyle lib s).map Track.id).Nodup :=
  List.Nodup.sublist ((List.filter_sublist lib.tracks).map Track.id) hn

theorem ids_nodup_of_perm_filter {l₂ l : List Track} (hp : l₂.Perm l)
    (hnd : (l.map Track.id).Nodup) (q : Track → Bool) :
    ((l₂.filter q).map Track.id).Nodup :=
  List.Nodup.sublist ((List.filter_sublist l₂).map Track.id)
    ((hp.map Track.id).nodup_iff.2 hnd)

theorem buildFallbackTandas_types (sh : List Track → List Track) (lib : Library) :
    ∀ (slots : List Slot) (idx : Nat) (used : List String),
      (buildFallbackTandas sh lib slots idx used).1.map Tanda.type = slots.map Slot.type
  | [], _, _ => rfl
  | slot :: rest, idx, used => by
    simp [buildFallbackTandas, buildFallbackTandas_types sh lib rest]

theorem buildFallbackTandas_reasoning (sh : List Track → List Track) (lib : Library) :
    ∀ (slots : List Slot) (idx : Nat) (used : List String),
      ∀ t ∈ (buildFallbackTandas sh lib slots idx used).1, t.reasoning = fallbackReasoning
  | [], _, _, t, ht => by simp [buildFallbackTandas] at ht
  | slot :: rest, idx, used, t, ht => by
    simp only [buildFallbackTandas, List.mem_cons] at ht
    rcases ht with rfl | ht
    · rfl
    · exact buildFallbackTandas_reasoning sh lib rest (idx + 1) _ t ht

theorem buildFallbackTandas_sizes (sh : List Track → List Track) (lib : Library) :
    ∀ (slots : List Slot) (idx : Nat) (used : List String) (i : Nat) (t : Tanda) (s : Slot),
      (buildFallbackTandas sh lib slots idx used).1[i]? = some t → slots[i]? = some s →
      t.tracks.length ≤ s.size
  | [], _, _, i, t, s, ht, hs => by simp at hs
  | slot :: rest, idx, used, 0, t, s, ht, hs => by
    simp only [List.getElem?_cons_zero, Option.some.injEq] at hs
    simp only [buildFallbackTandas, List.getElem?_cons_zero, Option.some.injEq] at ht
    subst hs
    subst ht
    simp [List.length_take_le]
  | slot :: rest, idx, used, i + 1, t, s, ht, hs => by
    simp only [List.getElem?_cons_succ] at hs
    simp only [buildFallbackTandas, List.getElem?_cons_succ] at ht
    exact buildFallbackTandas_sizes sh lib rest (idx + 1) _ i t s ht hs

theorem filterMap_getElem?_range :
    ∀ (l : List β) (n : Nat), (List.range n).filterMap (fun i => l[i]?) = l.take n
  | l, 0 => by simp
  | [], n + 1 => by
    rw [List.filterMap_eq_nil_iff.2 (fun a _ => by simp)]
    simp
  | b :: t, n + 1 => by
    rw [List.range_succ_eq_map]
    simp only [List.filterMap_cons, List.getElem?_cons_zero, List.filterMap_map,
      Function.comp_def, Nat.succ_eq_add_one, List.getElem?_cons_succ,
      List.take_succ_cons]
    rw [filterMap_getElem?_range t n]

theorem enum_map_getElem?_compact (xs : List α) (l : List β) :
    (xs.enum.map (fun it => l[it.1]?)).filterMap (fun c => c) = l.take xs.length := by
  have h1 : xs.enum.map (fun it => l[it.1]?) = (List.range xs.length).map (fun i => l[i]?) := by
    rw [← List.enum_map_fst xs, List.map_map]
    rfl
  rw [h1, List.filterMap_map]
  exact filterMap_getElem?_range l xs.length

theorem buildFallbackTandas_used (sh : List Track → List Track) (lib : Library) :
    ∀ (slots : List Slot) (idx : Nat) (used : List String),
      (buildFallbackTandas sh lib slots idx used).2 =
        used ++ ((buildFallbackTandas sh lib slots idx used).1.map
          (fun t => t.tracks.map Track.id)).flatten
  | [], idx, used => by simp [buildFallbackTandas]
  | slot :: rest, idx, used => by
    simp only [buildFallbackTandas, List.map_cons, List.flatten_cons]
    rw [buildFallbackTandas_used sh lib rest (idx + 1) _]
    simp [List.append_assoc]

theorem buildFallbackTandas_nodup (sh : List Track → List Track) (lib : Library)
    (hsh : ∀ l : List Track, (sh l).Perm l) (hn : (lib.tracks.map Track.id).Nodup) :
    ∀ (slots : List Slot) (idx : Nat) (used : List String), used.Nodup →
      (buildFallbackTandas sh lib slots idx used).2.Nodup
  | [], idx, used, hu => by simpa [buildFallbackTandas] using hu
  | slot :: rest, idx, used, hu => by
    simp only [buildFallbackTandas]
    apply buildFallbackTandas_nodup sh lib hsh hn rest (idx + 1) _
    rw [List.nodup_append]
    refine ⟨hu, ?_, ?_⟩
    · exact List.Nodup.sublist ((List.take_sublist _ _).map Track.id)
        (ids_nodup_of_perm_filter (hsh _) (groupByStyle_ids_nodup hn slot.type) _)
    · intro a ha hb
      obtain ⟨t, ht, rfl⟩ := List.mem_map.1 hb
      have hpr := (List.mem_filter.1 (List.mem_of_mem_take ht)).2
      have : t.id ∉ used := by simpa using hpr
      exact this ha

/-- C2: for every catalog with pairwise distinct track ids and every
injected shuffle that permutes its input (the source's Fisher-Yates shuffle
does, by shuffle_perm), the fallback planner always succeeds and yields
exactly 6 tandas with the fixed style sequence, 6 cortina slots, tanda i
holding at most [4,4,3,4,4,3][i] tracks, the fixed fallback reasoning on
every tanda, and no track id occurring twice across all tandas and cortina
slots together. -/
theorem C2_fallback_structure (sh : List Track → List Track) (lib : Library)
    (hsh : ∀ l : List Track, (sh l).Perm l)
    (hn : (lib.tracks.map Track.id).Nodup) :
    (fallbackPlaylistPlan sh lib).tandas.length = 6 ∧
    (fallbackPlaylistPlan sh lib).cortinas.length = 6 ∧
    (fallbackPlaylistPlan sh lib).tandas.map Tanda.type =
      ["tango", "tango", "vals", "tango", "tango", "milonga"] ∧
    (∀ (i : Nat) (t : Tanda) (n : Nat),
      (fallbackPlaylistPlan sh lib).tandas[i]? = some t →
      ([4, 4, 3, 4, 4, 3] : List Nat)[i]? = some n → t.tracks.length ≤ n) ∧
    (∀ t ∈ (fallbackPlaylistPlan sh lib).tandas, t.reasoning = fallbackReasoning) ∧
    (((fallbackPlaylistPlan sh lib).tandas.map (fun t => t.tracks.map Track.id)).flatten ++
      ((fallbackPlaylistPlan sh lib).cortinas.filterMap (fun c => c)).map
        Track.id).Nodup := by
  have hplan : fallbackPlaylistPlan sh lib =
      { tandas := (buildFallbackTandas sh lib pattern 0 []).1,
        cortinas := (buildFallbackTandas sh lib pattern 0 []).1.enum.map (fun it =>
          ((sh (if (groupByStyle lib "cortina").length != 0
              then groupByStyle lib "cortina" else groupByStyle lib "tango")).filter
            (fun t => !(buildFallbackTandas sh lib pattern 0 []).2.contains
              t.id))[it.1]?) } := rfl
  rw [hplan]
  set B := buildFallbackTandas sh lib pattern 0 [] with hB
  set base := if (groupByStyle lib "cortina").length != 0 then groupByStyle lib "cortina"
    else groupByStyle lib "tango" with hbase
  set cpool := (sh base).filter (fun t => !B.2.contains t.id) with hcpool
  have hTlen : B.1.length = 6 := by
    rw [hB, buildFallbackTandas_length]
    rfl
  have hused : B.2 = (B.1.map (fun t => t.tracks.map Track.id)).flatten := by
    rw [hB]
    exact buildFallbackTandas_used sh lib pattern 0 []
  have hflat : (B.1.map (fun t => t.tracks.map Track.id)).flatten.Nodup := by
    rw [← hused, hB]
    exact buildFallbackTandas_nodup sh lib hsh hn pattern 0 [] List.nodup_nil
  have hbn : (base.map Track.id).Nodup := by
    rw [hbase]
    split <;> exact groupByStyle_ids_nodup hn _
  have hcn : (cpool.map Track.id).Nodup :=
    ids_nodup_of_perm_filter (hsh base) hbn _
  refine ⟨hTlen, ?_, ?_, ?_, ?_, ?_⟩
  · simp [hTlen]
  · rw [hB, buildFallbackTandas_types]
    rfl
  · intro i t n h1 h2
    have hms : (pattern.map Slot.size)[i]? = some n := by
      rw [show pattern.map Slot.size = [4, 4, 3, 4, 4, 3] from rfl]
      exact h2
    rw [List.getElem?_map] at hms
    obtain ⟨s, hs, hsize⟩ := Option.map_eq_some'.1 hms
    rw [hB] at h1
    exact hsize ▸ buildFallbackTandas_sizes sh lib pattern 0 [] i t s h1 hs
  · intro t ht
    rw [hB] at ht
    exact buildFallbackTandas_reasoning sh lib pattern 0 [] t ht
  · have hcomp : (B.1.enum.map (fun it => cpool[it.1]?)).filterMap (fun c => c) =
        cpool.take B.1.length := enum_map_getElem?_compact B.1 cpool
    rw [List.nodup_append]
    refine ⟨hflat, ?_, ?_⟩
    · rw [hcomp]
      exact List.Nodup.sublist ((List.take_sublist _ _).map Track.id) hcn
    · intro a ha hb
      rw [hcomp] at hb
      obtain ⟨t, ht, rfl⟩ := List.mem_map.1 hb
      have hpr := (List.mem_filter.1 (List.mem_of_mem_take ht)).2
      have : t.id ∉ B.2 := by simpa using hpr
      rw [hused] at this
      exact this ha

theorem C2_fallback_structure_witness :
    (∀ l : List Track, (shuffle (fun i => i) l).Perm l) ∧
    (sampleLib.tracks.map Track.id).Nodup ∧
    ((fallbackPlaylistPlan (shuffle (fun i => i)) sampleLib).tandas.length = 6 ∧
      (fallbackPlaylistPlan (shuffle (fun i => i)) sampleLib).cortinas.length = 6 ∧
      (fallbackPlaylistPlan (shuffle (fun i => i)) sampleLib).tandas.map Tanda.type =
        ["tango", "tango", "vals", "tango", "tango", "milonga"] ∧
      (∀ (i : Nat) (t : Tanda) (n : Nat),
        (fallbackPlaylistPlan (shuffle (fun i => i)) sampleLib).tandas[i]? = some t →
        ([4, 4, 3, 4, 4, 3] : List Nat)[i]? = some n → t.tracks.length ≤ n) ∧
      (∀ t ∈ (fallbackPlaylistPlan (shuffle (fun i => i)) sampleLib).tandas,
        t.reasoning = fallbackReasoning) ∧
      (((fallbackPlaylistPlan (shuffle (fun i => i)) sampleLib).tandas.map
          (fun t => t.tracks.map Track.id)).flatten ++
        ((fallbackPlaylistPlan (shuffle (fun i => i)) sampleLib).cortinas.filterMap
          (fun c => c)).map Track.id).Nodup) :=
  ⟨fun l => shuffle_perm (fun i => i) l, by decide,
    C2_fallback_structure (shuffle (fun i => i)) sampleLib
      (fun l => shuffle_perm (fun i => i) l) (by decide)⟩

end DJAgent
